import Mathlib

/-!
Verification of the DUNE-DAQ `dataformats` headers: a shallow embedding of
`GeoID.hpp`, `Types.hpp` and `TriggerRecordHeader.hpp` (the
`TriggerRecordHeader` class wrapping a flat buffer holding a
`TriggerRecordHeaderData` header followed by a contiguous array of
`ComponentRequest` records), together with theorems about the constructors,
accessors and ownership behaviour.

Machine integers are modelled as `Nat`; widths only matter where an operation
truncates (the 32-bit error-bit word), and there an explicit `% 2 ^ 32`
appears.  The flat byte buffer is modelled structurally as the header value
followed by the list of component records actually present in memory; a
truncated external buffer is one whose list is shorter than the count its own
header announces.  Reads past the end of an allocation (undefined behaviour in
the C++) are modelled as `Option.none` / dedicated outcome constructors, and
the allocator is modelled as an oracle saying whether `malloc` succeeds.
-/

namespace dunedaq

namespace dataformats

/-- `GeoID` from `GeoID.hpp`: a logical coordinate made of an APA number and a
link number, both `uint32_t`. -/
structure GeoID where
  apa_number : Nat
  link_number : Nat
deriving DecidableEq, Repr

/-- `GeoID::operator<` from `GeoID.hpp`: the result of comparing
`std::tuple(apa_number, link_number)` with
`std::tuple(other.apa_number, other.link_number)`, i.e. lexicographic
comparison of the two pairs. -/
def GeoID.ltOp (a other : GeoID) : Bool :=
  if a.apa_number < other.apa_number then true
  else if other.apa_number < a.apa_number then false
  else decide (a.link_number < other.link_number)

/-- Modelled from the spec: `ComponentRequest.hpp` is not part of the sources
at hand.  The spec treats the trailing element type as an external fixed-size
trivially-copyable POD record whose internal fields are unspecified and opaque
to this component ("a fixed-size stub type"), so it is modelled as an opaque
value wrapping a single number. -/
structure ComponentRequest where
  val : Nat
deriving DecidableEq, Repr

/-- Modelled from the spec: `sizeof(ComponentRequest)` is a fixed positive
byte count supplied externally; the concrete value is irrelevant to every
claim, so an arbitrary representative is used. -/
def sizeof_ComponentRequest : Nat := 24

/-- `sizeof(TriggerRecordHeaderData)`: 4 + 4 + 8 + 8 + 8 + 4 + 4 + 2 bytes of
fields plus the 48-bit `unused` padding bit-field, 48 bytes in all. -/
def sizeof_TriggerRecordHeaderData : Nat := 48

/-- `TriggerRecordHeader::TriggerRecordHeaderData`, the nested struct of
`TriggerRecordHeader.hpp` (lines 31-75).  Fields in declaration order; all
modelled as `Nat`. -/
structure TriggerRecordHeaderData where
  trigger_record_header_marker : Nat
  version : Nat
  trigger_number : Nat
  trigger_timestamp : Nat
  num_requested_components : Nat
  run_number : Nat
  error_bits : Nat
  trigger_type : Nat
  unused : Nat
deriving DecidableEq, Repr

/-- `TRIGGER_RECORD_HEADER_MAGIC` (0x33334444). -/
def TRIGGER_RECORD_HEADER_MAGIC : Nat := 0x33334444

/-- `TRIGGER_RECORD_HEADER_VERSION`. -/
def TRIGGER_RECORD_HEADER_VERSION : Nat := 1

/-- A default-constructed nested `TriggerRecordHeaderData` value
(`TriggerRecordHeaderData header;` in the element-vector constructor):
`trigger_record_header_marker`, `version` and `error_bits` have in-class
initialisers; `trigger_number`, `trigger_timestamp`,
`num_requested_components`, `run_number`, `trigger_type` and `unused` have
none, so they hold indeterminate values, modelled as parameters. -/
def defaultNestedHeader (tn ts nrc rn tt un : Nat) : TriggerRecordHeaderData :=
  { trigger_record_header_marker := TRIGGER_RECORD_HEADER_MAGIC
    version := TRIGGER_RECORD_HEADER_VERSION
    trigger_number := tn
    trigger_timestamp := ts
    num_requested_components := nrc
    run_number := rn
    error_bits := 0
    trigger_type := tt
    unused := un }

/-- The flat memory block a `TriggerRecordHeader` points at, modelled
structurally: the `TriggerRecordHeaderData` at offset 0 followed by the
`ComponentRequest` records actually present in the block.  For a well-formed
block `stored.length = header.num_requested_components`; an external buffer
truncated below the size its own header implies has `stored` shorter than
that count. -/
structure RawBuffer where
  header : TriggerRecordHeaderData
  stored : List ComponentRequest
deriving DecidableEq, Repr

/-- The buffer written by
`TriggerRecordHeader::TriggerRecordHeader(std::vector<ComponentRequest>)`
(lines 81-97) when `malloc` succeeds: a default-constructed nested header
whose `num_requested_components` is overwritten with `components.size()`,
followed by the components copied one after the other in input order.
`tn ts nrc rn tt un` are the indeterminate values of the uninitialised header
fields (`nrc` is the indeterminate value that `num_requested_components` held
before being assigned). -/
def mkTriggerRecordHeaderBuffer (tn ts nrc rn tt un : Nat)
    (components : List ComponentRequest) : RawBuffer :=
  { header :=
      { defaultNestedHeader tn ts nrc rn tt un with
          num_requested_components := components.length }
    stored := components }

/-- `TriggerRecordHeader::get_num_requested_components` (line 184). -/
def get_num_requested_components (b : RawBuffer) : Nat :=
  b.header.num_requested_components

/-- `TriggerRecordHeader::get_total_size_bytes` (line 242):
`num_requested_components * sizeof(ComponentRequest) +
sizeof(TriggerRecordHeaderData)`. -/
def get_total_size_bytes (b : RawBuffer) : Nat :=
  b.header.num_requested_components * sizeof_ComponentRequest +
    sizeof_TriggerRecordHeaderData

/-- `TriggerRecordHeader::at` (lines 258-265).  The bounds check
`idx >= header_()->num_requested_components` has an EMPTY body in the source
(only the comment "Throw ERS exception"), so it has no effect: the method
always dereferences the idx-th `ComponentRequest` slot after the header.  A
slot beyond the records present in the block is memory past the end of the
allocation; reading it is undefined behaviour, modelled as `none`. -/
def trh_at (b : RawBuffer) (idx : Nat) : Option ComponentRequest :=
  b.stored[idx]?

/-- A write through `TriggerRecordHeader::operator[]` (lines 273-280), whose
bounds check likewise has an empty body: `(*this)[idx] = v` overwrites the
idx-th component slot.  (An out-of-range `idx` would write past the
allocation; `List.set` leaves the list unchanged there, and no claim exercises
that case.) -/
def setComponent (b : RawBuffer) (idx : Nat) (v : ComponentRequest) :
    RawBuffer :=
  { b with stored := b.stored.set idx v }

/-- `TriggerRecordHeader::get_error_bits` (line 203): the `uint32_t`
`error_bits` field viewed as a `std::bitset<32>`, i.e. its low 32 bits. -/
def get_error_bits (b : RawBuffer) : Nat :=
  b.header.error_bits % 2 ^ 32

/-- `TriggerRecordHeader::set_error_bits` (line 208): stores
`bits.to_ulong()` of a `std::bitset<32>`, always `< 2 ^ 32`, into the
`error_bits` field. -/
def set_error_bits (b : RawBuffer) (bits : Nat) : RawBuffer :=
  { b with header := { b.header with error_bits := bits % 2 ^ 32 } }

/-- `TriggerRecordHeader::get_error_bit` (line 214): bit `bit` of
`get_error_bits()`. -/
def get_error_bit (b : RawBuffer) (bit : Nat) : Bool :=
  (get_error_bits b).testBit bit

/-- `bits[bit] = value` on the 32-bit word of a `std::bitset<32>`: set or
clear the single bit `bit`. -/
def bitsetAssign (bits bit : Nat) (value : Bool) : Nat :=
  if value then bits ||| 2 ^ bit else bits &&& ((2 ^ 32 - 1) ^^^ 2 ^ bit)

/-- `TriggerRecordHeader::set_error_bit` (lines 220-225): read the whole
bitset, assign the one bit, write the whole bitset back. -/
def set_error_bit (b : RawBuffer) (bit : Nat) (value : Bool) : RawBuffer :=
  set_error_bits b (bitsetAssign (get_error_bits b) bit value)

/-- `TriggerRecordHeader::set_trigger_number` (line 168). -/
def set_trigger_number (b : RawBuffer) (v : Nat) : RawBuffer :=
  { b with header := { b.header with trigger_number := v } }

/-- Outcome of running a `TriggerRecordHeader` constructor.  The source never
checks the result of `malloc` and never checks the extent of an external
buffer, so besides success the possible outcomes are two kinds of undefined
behaviour; no constructor of this type is an exception/error report, because
the source raises none (in particular `MemoryAllocationFailed` from
`Types.hpp` is never thrown, and no truncation error exists). -/
inductive CtorResult where
  /-- Construction succeeded; the new owning allocation holds `b`. -/
  | ok (b : RawBuffer)
  /-- `malloc` returned null, yet the code has already set `alloc_ = true`
  and proceeds to `memcpy` into the null pointer: undefined behaviour with a
  partially-initialised owning instance, not a raised error. -/
  | nullWrite
  /-- `memcpy` read past the end of the source buffer (the buffer holds fewer
  bytes than the size computed from its own header): undefined behaviour, not
  a raised error. -/
  | oobRead
deriving DecidableEq, Repr

/-- The element-vector constructor (lines 81-97) with the allocator modelled
as an oracle: `malloc(size)` then unconditionally `alloc_ = true` and two
`memcpy` phases.  When `malloc` fails the code still writes through the null
pointer. -/
def fromComponents (allocOk : Bool) (tn ts nrc rn tt un : Nat)
    (components : List ComponentRequest) : CtorResult :=
  if allocOk then
    .ok (mkTriggerRecordHeaderBuffer tn ts nrc rn tt un components)
  else .nullWrite

/-- The image copied by the `copy_from_buffer = true` branch of the
buffer constructor (lines 108-115): `size` is computed from the
`num_requested_components` field of the source buffer's OWN header, and
`memcpy` copies that many bytes, i.e. the header plus the first
`num_requested_components` component slots of the source. -/
def wrapCopyImage (src : RawBuffer) : RawBuffer :=
  { header := src.header
    stored := src.stored.take src.header.num_requested_components }

/-- The buffer constructor `TriggerRecordHeader(void*, bool)` (lines 104-116)
with `copy_from_buffer = true`, allocator as oracle.  No truncation check of
any kind is performed: `malloc` of the size implied by the source's own header
is called unconditionally, and the subsequent `memcpy` reads past the end of
the source buffer whenever the buffer holds fewer component records than its
header announces. -/
def fromBufferCopy (allocOk : Bool) (src : RawBuffer) : CtorResult :=
  if allocOk then
    if src.header.num_requested_components ≤ src.stored.length then
      .ok (wrapCopyImage src)
    else .oobRead
  else .nullWrite

/-- Number of allocator calls made by the `copy_from_buffer = true` branch:
`malloc` is called exactly once, before the copy, regardless of the source
buffer's contents. -/
def fromBufferCopy_allocCalls (_src : RawBuffer) : Nat :=
  1

/-! ## Heap-level model

Ownership, borrowing, deep copies and destruction are about pointer identity,
so they are modelled over an explicit heap: a list of allocation cells, each
either live (holding a `RawBuffer`) or freed.  A `TriggerRecordHeader` object
is its two data members: the pointer `data_arr_` (a cell index) and the
ownership flag `alloc_`. -/

/-- The allocator's heap: cell `i` of `cells` is allocation number `i`,
`none` once freed. -/
structure Heap where
  cells : List (Option RawBuffer)
deriving DecidableEq, Repr

/-- Dereference pointer `a`: the buffer in cell `a`, `none` if the cell was
freed or never existed. -/
def Heap.read (h : Heap) (a : Nat) : Option RawBuffer :=
  (h.cells[a]?).getD none

/-- `malloc` + initialisation with `b`: a fresh cell at the end of the heap;
returns the new heap and the pointer to the fresh cell. -/
def Heap.allocCell (h : Heap) (b : RawBuffer) : Heap × Nat :=
  ({ cells := h.cells ++ [some b] }, h.cells.length)

/-- `free(a)`: mark cell `a` freed. -/
def Heap.freeCell (h : Heap) (a : Nat) : Heap :=
  { cells := h.cells.set a none }

/-- Overwrite the live buffer behind pointer `a` (a store through the
pointer). -/
def Heap.write (h : Heap) (a : Nat) (b : RawBuffer) : Heap :=
  { cells := h.cells.set a (some b) }

/-- The data members of a `TriggerRecordHeader` object (lines 288-289):
`data_arr_`, the pointer to the flat block, and `alloc_`, whether the object
owns that block. -/
structure TriggerRecordHeader where
  data_arr_ : Nat
  alloc_ : Bool
deriving DecidableEq, Repr

/-- `TriggerRecordHeader::get_storage_location` (line 250): returns
`data_arr_` itself. -/
def get_storage_location (t : TriggerRecordHeader) : Nat :=
  t.data_arr_

/-- The buffer constructor (lines 104-116) with `copy_from_buffer = false`:
store the caller's pointer directly in `data_arr_` and leave `alloc_` at its
member-initialiser value `false`; the heap is untouched. -/
def trhWrapBorrow (h : Heap) (buf : Nat) : Heap × TriggerRecordHeader :=
  (h, { data_arr_ := buf, alloc_ := false })

/-- The buffer constructor (lines 104-116) with `copy_from_buffer = true`, at
heap level, for a successful `malloc`: read the header behind the caller's
pointer, allocate a fresh block, `memcpy` the implied size into it, set
`alloc_ = true`.  Dereferencing a dead pointer is undefined behaviour,
modelled as `none`. -/
def trhWrapCopy (h : Heap) (buf : Nat) :
    Option (Heap × TriggerRecordHeader) :=
  match h.read buf with
  | some src =>
      some ((h.allocCell (wrapCopyImage src)).1,
        { data_arr_ := (h.allocCell (wrapCopyImage src)).2, alloc_ := true })
  | none => none

/-- The copy constructor (lines 122-124): delegates to the buffer constructor
with `other.data_arr_` and `copy_from_buffer = true`. -/
def trhCopyCtor (h : Heap) (other : TriggerRecordHeader) :
    Option (Heap × TriggerRecordHeader) :=
  trhWrapCopy h other.data_arr_

/-- The copy assignment operator (lines 130-139) for `&other != this`:
`malloc(other.get_total_size_bytes())`, `alloc_ = true`, `memcpy` of that many
bytes from `other.data_arr_` — the same allocation-plus-copy as the copying
buffer constructor (`get_total_size_bytes` is the very size that constructor
computes), after which `this`'s members are the fresh pointer and `true`.
(The self-assignment branch returns `*this` unchanged and is not modelled
here.) -/
def trhCopyAssign (h : Heap) (other : TriggerRecordHeader) :
    Option (Heap × TriggerRecordHeader) :=
  trhWrapCopy h other.data_arr_

/-- The destructor (lines 147-151): `if (alloc_) free(data_arr_);`. -/
def trhDelete (h : Heap) (t : TriggerRecordHeader) : Heap :=
  if t.alloc_ then h.freeCell t.data_arr_ else h

/-- A write of component slot `idx` through `operator[]` on the object's
block, at heap level. -/
def trhSetComponent (h : Heap) (t : TriggerRecordHeader) (idx : Nat)
    (v : ComponentRequest) : Heap :=
  match h.read t.data_arr_ with
  | some b => h.write t.data_arr_ (setComponent b idx v)
  | none => h

/-- `set_trigger_number` on the object's block, at heap level. -/
def trhSetTriggerNumber (h : Heap) (t : TriggerRecordHeader) (v : Nat) :
    Heap :=
  match h.read t.data_arr_ with
  | some b => h.write t.data_arr_ (set_trigger_number b v)
  | none => h

/-- A concrete well-formed empty record (its header announces zero
components and none are stored), used to instantiate theorems. -/
def emptyRecord : RawBuffer :=
  { header := defaultNestedHeader 0 0 0 0 0 0, stored := [] }

/-- A concrete one-cell heap whose cell 0 holds `emptyRecord`, used to
instantiate theorems. -/
def heap0 : Heap :=
  { cells := [some emptyRecord] }

/-! ## Helper lemmas -/

/-- `GeoID::operator<` computes exactly the strict lexicographic order on
`(apa_number, link_number)`. -/
theorem GeoID.ltOp_iff (a b : GeoID) :
    GeoID.ltOp a b = true ↔
      a.apa_number < b.apa_number ∨
        (a.apa_number = b.apa_number ∧ a.link_number < b.link_number) := by
  unfold GeoID.ltOp
  split
  · simp
    omega
  · split
    · simp
      omega
    · simp
      omega

/-! ## Claims -/

/-- C8: `GeoID::operator<` is the strict lexicographic order on
`(apa_number, link_number)` and is a strict total order: irreflexive,
transitive, and total over distinct values; in particular
`GeoID{1,5} < GeoID{1,6}`, `GeoID{1,6} < GeoID{2,0}`, and `GeoID{3,1}` is not
less than `GeoID{3,1}`. -/
theorem C8_geoid_lt_strict_total_order :
    (∀ a b : GeoID, GeoID.ltOp a b = true ↔
      a.apa_number < b.apa_number ∨
        (a.apa_number = b.apa_number ∧ a.link_number < b.link_number)) ∧
    (∀ a : GeoID, GeoID.ltOp a a = false) ∧
    (∀ a b c : GeoID, GeoID.ltOp a b = true → GeoID.ltOp b c = true →
      GeoID.ltOp a c = true) ∧
    (∀ a b : GeoID, a ≠ b →
      GeoID.ltOp a b = true ∨ GeoID.ltOp b a = true) ∧
    GeoID.ltOp { apa_number := 1, link_number := 5 }
      { apa_number := 1, link_number := 6 } = true ∧
    GeoID.ltOp { apa_number := 1, link_number := 6 }
      { apa_number := 2, link_number := 0 } = true ∧
    GeoID.ltOp { apa_number := 3, link_number := 1 }
      { apa_number := 3, link_number := 1 } = false := by
  refine ⟨GeoID.ltOp_iff, ?_, ?_, ?_, by decide, by decide, by decide⟩
  · intro a
    have h := GeoID.ltOp_iff a a
    cases hb : GeoID.ltOp a a
    · rfl
    · have := h.mp hb
      omega
  · intro a b c hab hbc
    rw [GeoID.ltOp_iff] at hab hbc ⊢
    omega
  · intro a b hne
    rcases a with ⟨a1, a2⟩
    rcases b with ⟨b1, b2⟩
    have hne2 : a1 ≠ b1 ∨ a2 ≠ b2 := by
      by_contra hc
      push_neg at hc
      exact hne (by simp [hc.1, hc.2])
    rw [GeoID.ltOp_iff, GeoID.ltOp_iff]
    simp only []
    omega

/-- Witness for C8: transitivity applied at the concrete chain
`GeoID{1,5} < GeoID{1,6} < GeoID{2,0}`. -/
theorem C8_geoid_lt_witness :
    GeoID.ltOp { apa_number := 1, link_number := 5 }
      { apa_number := 2, link_number := 0 } = true :=
  C8_geoid_lt_strict_total_order.2.2.1
    { apa_number := 1, link_number := 5 }
    { apa_number := 1, link_number := 6 }
    { apa_number := 2, link_number := 0 }
    (by decide) (by decide)

/-- C1: building a record from a vector `E` of `n` components yields
`get_num_requested_components() = n`, and `at(i)` returns the component equal
to `E[i]` for every `i < n`, in the order supplied at construction (for every
value of the indeterminate uninitialised header fields). -/
theorem C1_build_from_elements (tn ts nrc rn tt un : Nat)
    (E : List ComponentRequest) :
    get_num_requested_components
        (mkTriggerRecordHeaderBuffer tn ts nrc rn tt un E) = E.length ∧
    ∀ i : Nat, ∀ hi : i < E.length,
      trh_at (mkTriggerRecordHeaderBuffer tn ts nrc rn tt un E) i =
        some (E.get ⟨i, hi⟩) := by
  constructor
  · rfl
  · intro i hi
    show E[i]? = some (E.get ⟨i, hi⟩)
    rw [List.getElem?_eq_getElem hi]
    rfl

/-- Witness for C1 at the two-element vector `[{10}, {20}]`. -/
theorem C1_build_from_elements_witness :
    get_num_requested_components
        (mkTriggerRecordHeaderBuffer 0 0 0 0 0 0
          [{ val := 10 }, { val := 20 }]) = 2 ∧
    trh_at (mkTriggerRecordHeaderBuffer 0 0 0 0 0 0
        [{ val := 10 }, { val := 20 }]) 1 = some { val := 20 } :=
  ⟨(C1_build_from_elements 0 0 0 0 0 0 [{ val := 10 }, { val := 20 }]).1,
   (C1_build_from_elements 0 0 0 0 0 0 [{ val := 10 }, { val := 20 }]).2 1
     (by decide)⟩

/-- C10: the element-vector constructor always produces a header whose marker
is 0x33334444, whose version is 1 and whose error_bits are 0, independent of
the component vector; it offers no way to supply `trigger_number`,
`trigger_timestamp`, `run_number` or `trigger_type`, which keep whatever
indeterminate values (`tn`, `ts`, `rn`, `tt`) the uninitialised
default-constructed header held. -/
theorem C10_build_header_constants (tn ts nrc rn tt un : Nat)
    (E : List ComponentRequest) :
    (mkTriggerRecordHeaderBuffer tn ts nrc rn tt un
        E).header.trigger_record_header_marker = 0x33334444 ∧
    (mkTriggerRecordHeaderBuffer tn ts nrc rn tt un E).header.version = 1 ∧
    (mkTriggerRecordHeaderBuffer tn ts nrc rn tt un E).header.error_bits = 0 ∧
    (mkTriggerRecordHeaderBuffer tn ts nrc rn tt un
        E).header.trigger_number = tn ∧
    (mkTriggerRecordHeaderBuffer tn ts nrc rn tt un
        E).header.trigger_timestamp = ts ∧
    (mkTriggerRecordHeaderBuffer tn ts nrc rn tt un
        E).header.run_number = rn ∧
    (mkTriggerRecordHeaderBuffer tn ts nrc rn tt un
        E).header.trigger_type = tt :=
  ⟨rfl, rfl, rfl, rfl, rfl, rfl, rfl⟩

/-- C2 (code bug): the bounds checks in `at` and `operator[]` have empty
bodies (only the comment "Throw ERS exception"), contradicting their own
documentation comments ("@throws ERS error if idx is outside of allowable
range"): on a record with zero components, `at(0)` does not fail with an
index error — it reads the memory immediately past the component array
(modelled `none`, an out-of-bounds read). -/
theorem C2_at_bounds_check_ineffective :
    get_num_requested_components
        (mkTriggerRecordHeaderBuffer 0 0 0 0 0 0 []) = 0 ∧
    trh_at (mkTriggerRecordHeaderBuffer 0 0 0 0 0 0 []) 0 = none :=
  ⟨rfl, rfl⟩

/-- C3 (counterexample): on a buffer whose own header announces one component
but which stores none — i.e. a buffer smaller than the size its header
implies — the copying buffer constructor does not fail with any truncation
error (no such error exists in the code): it calls the allocator once and the
copy reads past the end of the buffer. -/
theorem C3_truncated_no_error_counterexample :
    fromBufferCopy true
        { header := defaultNestedHeader 0 0 1 0 0 0, stored := [] } =
      CtorResult.oobRead ∧
    fromBufferCopy_allocCalls
        { header := defaultNestedHeader 0 0 1 0 0 0, stored := [] } = 1 :=
  ⟨rfl, rfl⟩

/-- C3 (amended): for every external buffer holding fewer component records
than its own header's `num_requested_components` announces, the buffer
constructor with `copy_from_buffer = true` performs no truncation check and
raises no error: it calls `malloc` exactly once regardless, and the
subsequent `memcpy` reads past the end of the buffer (undefined
behaviour). -/
theorem C3_truncated_unchecked_copy (src : RawBuffer)
    (htrunc : src.stored.length < src.header.num_requested_components) :
    fromBufferCopy true src = CtorResult.oobRead ∧
    fromBufferCopy_allocCalls src = 1 := by
  refine ⟨?_, rfl⟩
  unfold fromBufferCopy
  simp [not_le.mpr htrunc]

/-- Witness for the amended C3 at a buffer announcing two components but
storing one. -/
theorem C3_truncated_unchecked_copy_witness :
    fromBufferCopy true
        { header := defaultNestedHeader 0 0 2 0 0 0,
          stored := [{ val := 1 }] } = CtorResult.oobRead ∧
    fromBufferCopy_allocCalls
        { header := defaultNestedHeader 0 0 2 0 0 0,
          stored := [{ val := 1 }] } = 1 :=
  C3_truncated_unchecked_copy
    { header := defaultNestedHeader 0 0 2 0 0 0, stored := [{ val := 1 }] }
    (by decide)

/-- The image copied by the `copy_from_buffer = true` branch is the whole
source block whenever the block is well formed (stores exactly the number of
components its header announces). -/
theorem wrapCopyImage_eq_self (b : RawBuffer)
    (hvalid : b.header.num_requested_components = b.stored.length) :
    wrapCopyImage b = b := by
  unfold wrapCopyImage
  rw [hvalid, List.take_length]

/-- C4: round-trip — running the buffer constructor with
`copy_from_buffer = true` on the raw buffer of a valid instance succeeds and
produces a block whose header equals the source's (so every header field is
equal), whose component at every index below the count equals the source's,
and whose `get_total_size_bytes` equals the source's. -/
theorem C4_wrap_copy_roundtrip (b : RawBuffer)
    (hvalid : b.header.num_requested_components = b.stored.length) :
    fromBufferCopy true b = CtorResult.ok (wrapCopyImage b) ∧
    (wrapCopyImage b).header = b.header ∧
    (∀ i : Nat, i < get_num_requested_components b →
      trh_at (wrapCopyImage b) i = trh_at b i) ∧
    get_total_size_bytes (wrapCopyImage b) = get_total_size_bytes b := by
  have himg := wrapCopyImage_eq_self b hvalid
  refine ⟨?_, by rw [himg], ?_, by rw [himg]⟩
  · unfold fromBufferCopy
    simp [le_of_eq hvalid]
  · intro i _
    rw [himg]

/-- Witness for C4 at a valid one-component instance. -/
theorem C4_wrap_copy_roundtrip_witness :
    fromBufferCopy true
        { header := defaultNestedHeader 5 6 1 7 8 9,
          stored := [{ val := 3 }] } =
      CtorResult.ok (wrapCopyImage
        { header := defaultNestedHeader 5 6 1 7 8 9,
          stored := [{ val := 3 }] }) ∧
    trh_at (wrapCopyImage
        { header := defaultNestedHeader 5 6 1 7 8 9,
          stored := [{ val := 3 }] }) 0 =
      trh_at
        { header := defaultNestedHeader 5 6 1 7 8 9,
          stored := [{ val := 3 }] } 0 :=
  ⟨(C4_wrap_copy_roundtrip
      { header := defaultNestedHeader 5 6 1 7 8 9, stored := [{ val := 3 }] }
      (by decide)).1,
   (C4_wrap_copy_roundtrip
      { header := defaultNestedHeader 5 6 1 7 8 9, stored := [{ val := 3 }] }
      (by decide)).2.2.1 0 (by decide)⟩

/-- C9 (code bug): neither owning construction checks the allocator's result.
When `malloc` fails (the oracle says `false`), no `MemoryAllocationFailed` —
the exception `Types.hpp` defines for exactly this — is thrown and no error
of any kind is raised: the constructors set `alloc_ = true` and `memcpy` into
the null pointer. -/
theorem C9_alloc_failure_not_reported :
    fromComponents false 0 0 0 0 0 0 [] = CtorResult.nullWrite ∧
    fromBufferCopy false
        { header := defaultNestedHeader 0 0 0 0 0 0, stored := [] } =
      CtorResult.nullWrite :=
  ⟨rfl, rfl⟩

/-- The clearing branch of a bitset element assignment. -/
theorem bitsetAssign_false (bits bit : Nat) :
    bitsetAssign bits bit false = bits &&& ((2 ^ 32 - 1) ^^^ 2 ^ bit) := rfl

/-- The setting branch of a bitset element assignment. -/
theorem bitsetAssign_true (bits bit : Nat) :
    bitsetAssign bits bit true = bits ||| 2 ^ bit := rfl

/-- One step of `set_error_bit` seen through `get_error_bit`, for in-range
bit indices: bit `k` becomes `v`, every other bit keeps its value. -/
theorem get_error_bit_set_error_bit (b : RawBuffer) (k j : Nat) (v : Bool)
    (hk : k < 32) (hj : j < 32) :
    get_error_bit (set_error_bit b k v) j =
      if j = k then v else get_error_bit b j := by
  by_cases hjk : j = k
  · subst hjk
    rw [if_pos rfl]
    cases v
    · simp only [get_error_bit, set_error_bit, set_error_bits,
        get_error_bits, bitsetAssign_false]
      simp only [Nat.testBit_mod_two_pow, Nat.testBit_land, Nat.testBit_xor,
        Nat.testBit_two_pow_sub_one, Nat.testBit_two_pow_self]
      simp [hj]
    · simp only [get_error_bit, set_error_bit, set_error_bits,
        get_error_bits, bitsetAssign_true]
      simp only [Nat.testBit_mod_two_pow, Nat.testBit_lor,
        Nat.testBit_two_pow_self]
      simp [hj]
  · rw [if_neg hjk]
    cases v
    · simp only [get_error_bit, set_error_bit, set_error_bits,
        get_error_bits, bitsetAssign_false]
      simp only [Nat.testBit_mod_two_pow, Nat.testBit_land, Nat.testBit_xor,
        Nat.testBit_two_pow_sub_one, Nat.testBit_two_pow_of_ne (Ne.symm hjk)]
      simp [hj]
    · simp only [get_error_bit, set_error_bit, set_error_bits,
        get_error_bits, bitsetAssign_true]
      simp only [Nat.testBit_mod_two_pow, Nat.testBit_lor,
        Nat.testBit_two_pow_of_ne (Ne.symm hjk)]
      simp [hj]

/-- C7: for every instance, bit index `k < 32` and boolean `v`,
`set_error_bit(k, v)` followed by `get_error_bit(k)` returns `v`; every other
bit `j ≠ k` of the 32-bit error word is unchanged, and so are all other
header fields and all stored components. -/
theorem C7_set_error_bit_roundtrip_frame (b : RawBuffer) (k : Nat) (v : Bool)
    (hk : k < 32) :
    get_error_bit (set_error_bit b k v) k = v ∧
    (∀ j : Nat, j < 32 → j ≠ k →
      get_error_bit (set_error_bit b k v) j = get_error_bit b j) ∧
    (set_error_bit b k v).header.trigger_record_header_marker =
      b.header.trigger_record_header_marker ∧
    (set_error_bit b k v).header.version = b.header.version ∧
    (set_error_bit b k v).header.trigger_number =
      b.header.trigger_number ∧
    (set_error_bit b k v).header.trigger_timestamp =
      b.header.trigger_timestamp ∧
    (set_error_bit b k v).header.num_requested_components =
      b.header.num_requested_components ∧
    (set_error_bit b k v).header.run_number = b.header.run_number ∧
    (set_error_bit b k v).header.trigger_type = b.header.trigger_type ∧
    (set_error_bit b k v).header.unused = b.header.unused ∧
    (set_error_bit b k v).stored = b.stored := by
  refine ⟨?_, ?_, rfl, rfl, rfl, rfl, rfl, rfl, rfl, rfl, rfl⟩
  · simpa using get_error_bit_set_error_bit b k k v hk hk
  · intro j hj hjk
    simpa [hjk] using get_error_bit_set_error_bit b k j v hk hj

/-- Witness for C7: set bit 3 on a concrete record, read bit 3 back and check
bit 5 is untouched. -/
theorem C7_set_error_bit_witness :
    get_error_bit (set_error_bit
        { header := defaultNestedHeader 1 2 3 4 5 6, stored := [] }
        3 true) 3 = true ∧
    get_error_bit (set_error_bit
        { header := defaultNestedHeader 1 2 3 4 5 6, stored := [] }
        3 true) 5 =
      get_error_bit
        { header := defaultNestedHeader 1 2 3 4 5 6, stored := [] } 5 :=
  ⟨(C7_set_error_bit_roundtrip_frame
      { header := defaultNestedHeader 1 2 3 4 5 6, stored := [] }
      3 true (by decide)).1,
   (C7_set_error_bit_roundtrip_frame
      { header := defaultNestedHeader 1 2 3 4 5 6, stored := [] }
      3 true (by decide)).2.1 5 (by decide) (by decide)⟩

/-- Dereferencing `a` successfully means cell `a` exists and is live. -/
theorem Heap.read_some (h : Heap) (a : Nat) (b : RawBuffer)
    (hr : h.read a = some b) : h.cells[a]? = some (some b) := by
  unfold Heap.read at hr
  cases hc : h.cells[a]? with
  | none => rw [hc] at hr; simp at hr
  | some x => rw [hc] at hr; simp only [Option.getD_some] at hr; rw [hr]

/-- Reading the freshly allocated cell yields the buffer just stored. -/
theorem Heap.read_allocCell_fresh (h : Heap) (b : RawBuffer) :
    (h.allocCell b).1.read h.cells.length = some b := by
  unfold Heap.allocCell Heap.read
  rw [List.getElem?_concat_length]
  rfl

/-- Allocating a fresh cell does not change any existing cell. -/
theorem Heap.read_allocCell_old (h : Heap) (b : RawBuffer) (a : Nat)
    (ha : a < h.cells.length) : (h.allocCell b).1.read a = h.read a := by
  unfold Heap.allocCell Heap.read
  rw [List.getElem?_append_left ha]

/-- A store through one pointer does not change the cell behind another. -/
theorem Heap.read_write_ne (h : Heap) (i j : Nat) (b : RawBuffer)
    (hne : i ≠ j) : (h.write i b).read j = h.read j := by
  unfold Heap.write Heap.read
  rw [List.getElem?_set_ne hne]

/-- Freeing one cell does not change the cell behind another pointer. -/
theorem Heap.read_freeCell_ne (h : Heap) (i j : Nat) (hne : i ≠ j) :
    (h.freeCell i).read j = h.read j := by
  unfold Heap.freeCell Heap.read
  rw [List.getElem?_set_ne hne]

/-- C5: copying an instance — owning or borrowing — by copy construction or
by (non-self) copy assignment yields a new owning instance (`alloc_ = true`)
backed by a freshly allocated cell (a pointer distinct from the source's,
unused in the old heap) holding a byte-for-byte copy of the source's block;
mutating the copy's components or header fields leaves the source's block
unchanged, and each instance can be destroyed without touching the other's
block. -/
theorem C5_copy_deep_and_independent (h : Heap) (t : TriggerRecordHeader)
    (b : RawBuffer)
    (hread : h.read t.data_arr_ = some b)
    (hvalid : b.header.num_requested_components = b.stored.length) :
    trhCopyCtor h t =
      some ((h.allocCell b).1,
        { data_arr_ := h.cells.length, alloc_ := true }) ∧
    trhCopyAssign h t =
      some ((h.allocCell b).1,
        { data_arr_ := h.cells.length, alloc_ := true }) ∧
    h.cells.length ≠ t.data_arr_ ∧
    h.read h.cells.length = none ∧
    (h.allocCell b).1.read h.cells.length = some b ∧
    (h.allocCell b).1.read t.data_arr_ = some b ∧
    (∀ idx : Nat, ∀ v : ComponentRequest,
      (trhSetComponent (h.allocCell b).1
          { data_arr_ := h.cells.length, alloc_ := true } idx v).read
        t.data_arr_ = some b) ∧
    (∀ v : Nat,
      (trhSetTriggerNumber (h.allocCell b).1
          { data_arr_ := h.cells.length, alloc_ := true } v).read
        t.data_arr_ = some b) ∧
    (trhDelete (h.allocCell b).1
        { data_arr_ := h.cells.length, alloc_ := true }).read t.data_arr_ =
      some b ∧
    (trhDelete (h.allocCell b).1 t).read h.cells.length = some b := by
  have hcell : h.cells[t.data_arr_]? = some (some b) :=
    Heap.read_some h t.data_arr_ b hread
  have hlt : t.data_arr_ < h.cells.length :=
    (List.getElem?_eq_some.mp hcell).1
  have hne : h.cells.length ≠ t.data_arr_ := ne_of_gt hlt
  have himg : wrapCopyImage b = b := wrapCopyImage_eq_self b hvalid
  have hctor : trhCopyCtor h t =
      some ((h.allocCell b).1,
        { data_arr_ := h.cells.length, alloc_ := true }) := by
    unfold trhCopyCtor trhWrapCopy
    rw [hread]
    simp [himg, Heap.allocCell]
  have hfresh : (h.allocCell b).1.read h.cells.length = some b :=
    Heap.read_allocCell_fresh h b
  have hold : (h.allocCell b).1.read t.data_arr_ = some b := by
    rw [Heap.read_allocCell_old h b t.data_arr_ hlt, hread]
  refine ⟨hctor, hctor, hne, ?_, hfresh, hold, ?_, ?_, ?_, ?_⟩
  · unfold Heap.read
    rw [List.getElem?_eq_none (le_refl _)]
    rfl
  · intro idx v
    unfold trhSetComponent
    simp only []
    rw [hfresh]
    simp only []
    rw [Heap.read_write_ne _ _ _ _ hne, hold]
  · intro v
    unfold trhSetTriggerNumber
    simp only []
    rw [hfresh]
    simp only []
    rw [Heap.read_write_ne _ _ _ _ hne, hold]
  · unfold trhDelete
    simp only [if_true]
    rw [Heap.read_freeCell_ne _ _ _ hne, hold]
  · by_cases ht : t.alloc_
    · unfold trhDelete
      rw [if_pos ht, Heap.read_freeCell_ne _ _ _ (Ne.symm hne), hfresh]
    · unfold trhDelete
      rw [if_neg ht]
      exact hfresh

/-- Witness for C5: a one-cell heap holding a valid empty record owned by the
instance at pointer 0; the copy lands at pointer 1, and writing component 0
of the copy leaves the source's block intact. -/
theorem C5_copy_deep_witness :
    trhCopyCtor heap0 { data_arr_ := 0, alloc_ := true } =
      some ((heap0.allocCell emptyRecord).1,
        { data_arr_ := 1, alloc_ := true }) ∧
    (trhSetComponent (heap0.allocCell emptyRecord).1
        { data_arr_ := 1, alloc_ := true } 0 { val := 7 }).read 0 =
      some emptyRecord :=
  ⟨(C5_copy_deep_and_independent heap0 { data_arr_ := 0, alloc_ := true }
      emptyRecord (by decide) (by decide)).1,
   (C5_copy_deep_and_independent heap0 { data_arr_ := 0, alloc_ := true }
      emptyRecord (by decide) (by decide)).2.2.2.2.2.2.1 0 { val := 7 }⟩

/-- C6: the buffer constructor with `copy_from_buffer = false` stores the
caller's pointer directly (`get_storage_location` returns the very pointer
passed in), marks the instance non-owning and touches no memory; the
destructor releases the instance's block exactly when `alloc_` is set —
borrowing instances release nothing. -/
theorem C6_borrow_no_ownership (h : Heap) (buf : Nat)
    (t : TriggerRecordHeader) :
    get_storage_location (trhWrapBorrow h buf).2 = buf ∧
    (trhWrapBorrow h buf).2.alloc_ = false ∧
    (trhWrapBorrow h buf).1 = h ∧
    (t.alloc_ = false → trhDelete h t = h) ∧
    (t.alloc_ = true → trhDelete h t = h.freeCell t.data_arr_) := by
  refine ⟨rfl, rfl, rfl, ?_, ?_⟩
  · intro ht
    unfold trhDelete
    rw [ht]
    rfl
  · intro ht
    unfold trhDelete
    rw [ht]
    rfl

/-- Witness for C6: wrapping pointer 5 without copying returns pointer 5 and
a non-owning instance, whose destruction leaves a concrete heap untouched. -/
theorem C6_borrow_no_ownership_witness :
    get_storage_location (trhWrapBorrow { cells := [] } 5).2 = 5 ∧
    trhDelete heap0 { data_arr_ := 0, alloc_ := false } = heap0 :=
  ⟨(C6_borrow_no_ownership { cells := [] } 5
      { data_arr_ := 0, alloc_ := false }).1,
   (C6_borrow_no_ownership heap0 5
      { data_arr_ := 0, alloc_ := false }).2.2.2.1 rfl⟩

end dataformats

end dunedaq
